import Mathlib

/-!
Verification development for the silica-percentage predictor app
(`src/main.py`): a single-page Streamlit form that collects three bounded
numeric parameters, loads a serialized regression model, and on an explicit
button press builds a single-row labeled record, calls the model's
inference function, and renders the formatted scalar result (or an error).

The shallow embedding below translates the Python source directly:
Python floats are embedded as exact rationals, the filesystem/joblib
outcome at the model path is an explicit parameter, the model's inference
call is an abstract function returning either a sequence of values or a
raised exception, and Streamlit render calls are collected into a list of
render events.  Raising an exception past the script boundary is an
`Except.error`; all caught exceptions turn into rendered error events.
-/

namespace Lixiviacion

/-- Configuration of one `st.slider` control: declared minimum, maximum,
default value and step, as in `src/main.py` lines 40-68. -/
structure Slider where
  minVal : ℚ
  maxVal : ℚ
  defVal : ℚ
  step : ℚ
deriving DecidableEq

/-- Streamlit slider semantics: the values a slider can hold are exactly
`min + k * step` for naturals `k`, never exceeding the declared maximum. -/
def Slider.accepts (sl : Slider) (v : ℚ) : Prop :=
  ∃ k : ℕ, v = sl.minVal + k * sl.step ∧ v ≤ sl.maxVal

/-- The iron-concentrate slider (`iron_concentrate_input`, lines 40-46):
bounds 60.00-70.00, default 66.00, step 0.05. -/
def ironSlider : Slider :=
  { minVal := 60, maxVal := 70, defVal := 66, step := 1/20 }

/-- The amine-flow slider (`amina_flow_input`, lines 51-57):
bounds 240-740, default 540, step 1. -/
def aminaSlider : Slider :=
  { minVal := 240, maxVal := 740, defVal := 540, step := 1 }

/-- The flotation-column air-flow slider (`flotation_column_airflow_input`,
lines 62-68): bounds -175-305, default 250, step 1. -/
def airflowSlider : Slider :=
  { minVal := -175, maxVal := 305, defVal := 250, step := 1 }

/-- The Input Collector exposes exactly these three controls, in the order
they are declared in the sidebar. -/
def sidebarSliders : List Slider :=
  [ironSlider, aminaSlider, airflowSlider]

/-- The three current input values held by the sidebar controls. -/
structure InputParameters where
  iron : ℚ
  amina : ℚ
  airflow : ℚ
deriving DecidableEq

/-- An input triple is in bounds when each value is one the corresponding
slider can hold. -/
def inBounds (p : InputParameters) : Prop :=
  ironSlider.accepts p.iron ∧ aminaSlider.accepts p.amina ∧
    airflowSlider.accepts p.airflow

/-- The fixed default values of the three controls (66.00, 540, 250). -/
def defaultParams : InputParameters :=
  { iron := 66, amina := 540, airflow := 250 }

/-- A pandas DataFrame as built by the app: ordered named columns, each a
list of cell values. -/
abbrev DataFrame := List (String × List ℚ)

/-- `df_input` (lines 91-95): the single-row PredictionRequest built from
the current slider values, with the exact column names and order. -/
def df_input (p : InputParameters) : DataFrame :=
  [("Amina Flow", [p.amina]),
   ("Flotation Column 03 Air Flow", [p.airflow]),
   ("% Iron Concentrate", [p.iron])]

/-- A value in the sequence returned by `model.predict`: either a numeric
scalar or some non-numeric object (with its printed form), which the
format specifier `.2f` would reject. -/
inductive PyVal where
  | num (q : ℚ)
  | other (rep : String)
deriving DecidableEq

/-- One behaviour of the model's inference call on a given request:
either it returns a sequence of values or it raises an exception whose
message is `msg`. -/
inductive PredictOutcome where
  | returns (xs : List PyVal)
  | raises (msg : String)

/-- A loaded model handle: from the app's point of view it is just its
inference function over single-row requests. -/
structure Model where
  predict : DataFrame → PredictOutcome

/-- What `joblib.load` does at the fixed model path: returns a model,
raises `FileNotFoundError`, or raises some other exception (unreadable or
corrupt file) with message `msg`. -/
inductive JoblibOutcome where
  | ok (m : Model)
  | fileNotFound
  | otherError (msg : String)

/-- A Streamlit render event produced by the prediction logic. -/
inductive Render where
  | success (s : String)
  | error (s : String)
  | warning (s : String)
  | info (s : String)
  | subheader (s : String)
deriving DecidableEq

/-- The `st.error` text rendered by `load_model` on `FileNotFoundError`
(line 24). -/
def loadErrMsg (path : String) : String :=
  "Error: No se encontró el archivo del modelo en " ++ path ++
    ". Asegúrate de que el archivo del modelo esté en el directorio correcto."

/-- `load_model` (lines 17-25): tries `joblib.load`; on `FileNotFoundError`
renders an error and returns `None`; any other exception is not caught and
propagates out of the function (`Except.error`). -/
def load_model (path : String) (o : JoblibOutcome) :
    Except String (Option Model × List Render) :=
  match o with
  | .ok m => .ok (some m, [])
  | .fileNotFound => .ok (none, [.error (loadErrMsg path)])
  | .otherError msg => .error msg

/-- The `st.warning` text rendered when the model is `None` (line 107). -/
def warningMsg : String :=
  "El modelo no pudo ser cargado. Por favor, verifica la ruta del archivo del modelo."

/-- The `st.error` text rendered when the guarded prediction region raises
(line 105): the fixed Spanish text followed by the exception's message. -/
def predictionErrorMsg (e : String) : String :=
  "Ocurrió un error durante la predicción: " ++ e

/-- The `st.subheader` text of line 100. -/
def resultHeader : String := "📈 Resultado de la Predicción"

/-- The `st.info` text of line 103. -/
def infoMsg : String :=
  "Este valor representa el porcentaje de sílica presente en la operación."

/-- Two-character decimal rendering of `r < 100`, as `%.2f` zero-pads the
fractional part. -/
def twoDigits (r : ℕ) : String :=
  String.mk [Nat.digitChar (r / 10), Nat.digitChar (r % 10)]

/-- Rounding of a rational to the nearest integer, computed as
`⌊q + 1/2⌋ = ⌊(2 num + den) / (2 den)⌋` on the reduced fraction.  (The
source formats binary doubles, where exact ties round to even; ties are an
artifact of the embedding into exact rationals and no claim depends on
their direction.) -/
def roundHalf (q : ℚ) : ℤ :=
  Int.fdiv (2 * q.num + q.den) (2 * q.den)

/-- The format specifier `:.2f` of line 102 on a numeric value: round to
hundredths and print with exactly two digits after the decimal point. -/
def formatFixed2 (q : ℚ) : String :=
  let n : ℤ := roundHalf (q * 100)
  let sign : String := if n < 0 then "-" else ""
  sign ++ toString (n.natAbs / 100) ++ "." ++ twoDigits (n.natAbs % 100)

/-- The `st.success` text of line 102 for a numeric prediction. -/
def successMsg (q : ℚ) : String :=
  "**Porcentaje Predicho:** `" ++ formatFixed2 q ++ "%`"

/-- The message of the `IndexError` numpy raises when `prediction_value[0]`
is evaluated on an empty result sequence. -/
def indexErrMsg : String := "index 0 is out of bounds for axis 0 with size 0"

/-- The message of the `TypeError` Python raises when the `.2f` format
specifier is applied to a non-numeric object. -/
def formatCodeErrMsg (rep : String) : String :=
  "unsupported format string passed to " ++ rep

/-- The guarded region of lines 98-105: run the inference call, then the
subheader, then index 0 of the result and format it.  Every exception
raised anywhere inside — by `model.predict` itself, by the index-0 access
on an empty sequence, or by formatting a non-numeric value — is caught by
`except Exception` and rendered via `st.error`; note the subheader of
line 100 has already been rendered when indexing or formatting raises. -/
def predictionRender (o : PredictOutcome) : List Render :=
  match o with
  | .raises e => [.error (predictionErrorMsg e)]
  | .returns [] =>
      [.subheader resultHeader, .error (predictionErrorMsg indexErrMsg)]
  | .returns (.num q :: _) =>
      [.subheader resultHeader, .success (successMsg q), .info infoMsg]
  | .returns (.other rep :: _) =>
      [.subheader resultHeader,
       .error (predictionErrorMsg (formatCodeErrMsg rep))]

/-- The prediction logic of lines 29 and 84-107 for one script run:
load the model from the fixed path `model.joblib`, and
  - if loading raised past `load_model`, the script itself raises;
  - if the model is `None`, render only the warning (the predict button is
    not even rendered, so the press flag is irrelevant);
  - otherwise, if the button is pressed, build `df_input` from the current
    slider values, run the guarded prediction region, and render its
    events. -/
def runApp (o : JoblibOutcome) (pressed : Bool) (p : InputParameters) :
    Except String (List Render) :=
  match load_model "model.joblib" o with
  | .error e => .error e
  | .ok (none, rs) => .ok (rs ++ [.warning warningMsg])
  | .ok (some m, rs) =>
      if pressed then .ok (rs ++ predictionRender (m.predict (df_input p)))
      else .ok rs

/-- The process-wide state kept by `@st.cache_resource` for `load_model`:
the cached return value per argument, plus a count of actual disk reads. -/
structure LoadState where
  cache : List (String × Option Model)
  diskReads : ℕ

/-- `@st.cache_resource` semantics for `load_model` (lines 17-29): on a
cache hit the stored handle is returned as-is with no disk access; on a
miss the wrapped function runs (reading the artifact at `path` from disk),
its return value is stored, and an uncaught exception is not cached. -/
def cachedLoad (disk : String → JoblibOutcome) (s : LoadState)
    (path : String) : Except String (Option Model × LoadState) :=
  match s.cache.lookup path with
  | some r => .ok (r, s)
  | none =>
      match load_model path (disk path) with
      | .error e => .error e
      | .ok (r, _) =>
          .ok (r, { cache := (path, r) :: s.cache, diskReads := s.diskReads + 1 })

/-- A concrete model whose inference call returns the single value 3,
used to instantiate universally quantified statements. -/
def demoModel : Model :=
  { predict := fun _ => .returns [.num 3] }

/-- A concrete model whose inference call returns an empty sequence. -/
def emptyModel : Model :=
  { predict := fun _ => .returns [] }

/-- A filesystem on which the fixed model path holds a valid artifact. -/
def demoDisk : String → JoblibOutcome := fun _ => .ok demoModel

/-- The cache state before any call to the cached loader. -/
def demoState0 : LoadState := { cache := [], diskReads := 0 }

/-- The cache state after one successful load of `model.joblib`. -/
def demoState1 : LoadState :=
  { cache := [("model.joblib", some demoModel)], diskReads := 1 }

/-- The default slider values are values the three sliders can hold. -/
theorem defaultParams_inBounds : inBounds defaultParams := by
  refine ⟨⟨120, ?_, ?_⟩, ⟨300, ?_, ?_⟩, ⟨425, ?_, ?_⟩⟩ <;>
    norm_num [ironSlider, aminaSlider, airflowSlider, defaultParams]

/-- Any value a slider with nonnegative step can hold lies between the
declared minimum and maximum. -/
theorem Slider.accepts_bounds (sl : Slider) (hstep : 0 ≤ sl.step) (v : ℚ)
    (h : sl.accepts v) : sl.minVal ≤ v ∧ v ≤ sl.maxVal := by
  obtain ⟨k, rfl, hle⟩ := h
  have hk : (0 : ℚ) ≤ (k : ℚ) * sl.step :=
    mul_nonneg (Nat.cast_nonneg k) hstep
  exact ⟨by linarith, hle⟩

/-- C1: building the PredictionRequest from the inputs
{iron=66.00, amine=540, airflow=250} yields a single-row record with
exactly the columns 'Amina Flow'=540, 'Flotation Column 03 Air Flow'=250,
'% Iron Concentrate'=66.00 in this order; and for every in-bounds input
triple the record has exactly these three column names in this order. -/
theorem df_input_request_shape :
    df_input defaultParams =
      [("Amina Flow", [(540 : ℚ)]),
       ("Flotation Column 03 Air Flow", [(250 : ℚ)]),
       ("% Iron Concentrate", [(66 : ℚ)])] ∧
    ∀ p : InputParameters, inBounds p →
      (df_input p).map Prod.fst =
        ["Amina Flow", "Flotation Column 03 Air Flow", "% Iron Concentrate"] :=
  ⟨rfl, fun _ _ => rfl⟩

/-- Witness for C1: the default inputs are in bounds and the theorem
applies to them. -/
theorem df_input_request_shape_witness :
    inBounds defaultParams ∧
    (df_input defaultParams).map Prod.fst =
      ["Amina Flow", "Flotation Column 03 Air Flow", "% Iron Concentrate"] :=
  ⟨defaultParams_inBounds,
   df_input_request_shape.2 defaultParams defaultParams_inBounds⟩

/-- C2 counterexample: when the artifact exists but is unreadable,
`joblib.load` raises an exception that is not a `FileNotFoundError`, and
`load_model` lets it propagate past the loader boundary — refuting the
claim that no invalid artifact ever raises past the boundary. -/
theorem load_model_raises_on_unreadable :
    load_model "model.joblib"
        (.otherError "could not read model.joblib") =
      Except.error "could not read model.joblib" :=
  rfl

/-- C2 (amended): for an absent artifact file (`FileNotFoundError`), the
load operation never raises past the loader boundary: it renders an error,
returns no handle, and the app run renders only that error and the warning
— the predict action is unavailable whether or not the button press flag
is set (the button is not even rendered). -/
theorem load_model_absent_degrades (pressed : Bool) (p : InputParameters) :
    load_model "model.joblib" .fileNotFound =
      Except.ok (none, [Render.error (loadErrMsg "model.joblib")]) ∧
    runApp .fileNotFound pressed p =
      Except.ok [Render.error (loadErrMsg "model.joblib"),
        Render.warning warningMsg] :=
  ⟨rfl, rfl⟩

/-- C3: for every in-bounds input triple and every behaviour of the
model's inference call, a triggered prediction run returns normally (no
exception escapes the guarded call site) and renders either a success
message carrying the two-decimal formatted value or an error message
carrying the underlying cause. -/
theorem prediction_always_renders (m : Model) (p : InputParameters)
    (hp : inBounds p) :
    ∃ rs, runApp (.ok m) true p = Except.ok rs ∧
      ((∃ q, Render.success (successMsg q) ∈ rs) ∨
       (∃ c, Render.error (predictionErrorMsg c) ∈ rs)) := by
  refine ⟨predictionRender (m.predict (df_input p)), rfl, ?_⟩
  rcases ho : m.predict (df_input p) with xs | e
  · rcases xs with _ | ⟨v, rest⟩
    · exact Or.inr ⟨indexErrMsg, by simp [predictionRender]⟩
    · rcases v with q | rep
      · exact Or.inl ⟨q, by simp [predictionRender]⟩
      · exact Or.inr ⟨formatCodeErrMsg rep, by simp [predictionRender]⟩
  · exact Or.inr ⟨e, by simp [predictionRender]⟩

/-- Witness for C3: the theorem applied to a concrete model and the
default (in-bounds) inputs. -/
theorem prediction_always_renders_witness :
    inBounds defaultParams ∧
    ∃ rs, runApp (.ok demoModel) true defaultParams = Except.ok rs ∧
      ((∃ q, Render.success (successMsg q) ∈ rs) ∨
       (∃ c, Render.error (predictionErrorMsg c) ∈ rs)) :=
  ⟨defaultParams_inBounds,
   prediction_always_renders demoModel defaultParams defaultParams_inBounds⟩

/-- C4: for a valid artifact path, once a call to the cached loader has
produced a handle and a cache state, calling it again with the same path
returns the very same handle and leaves the state — in particular the
disk-read counter — unchanged: loading is idempotent after the first
call and does not re-read the file. -/
theorem cachedLoad_repeat_same_handle (disk : String → JoblibOutcome)
    (path : String) (m : Model) (s : LoadState) (r : Option Model)
    (s' : LoadState) (hdisk : disk path = .ok m)
    (hfirst : cachedLoad disk s path = .ok (r, s')) :
    cachedLoad disk s' path = .ok (r, s') := by
  unfold cachedLoad at hfirst ⊢
  rcases hl : s.cache.lookup path with _ | r0
  · rw [hl, hdisk] at hfirst
    simp only [load_model, Except.ok.injEq, Prod.mk.injEq] at hfirst
    obtain ⟨rfl, rfl⟩ := hfirst
    simp [List.lookup]
  · rw [hl] at hfirst
    simp only [Except.ok.injEq, Prod.mk.injEq] at hfirst
    obtain ⟨rfl, rfl⟩ := hfirst
    rw [hl]

/-- Witness for C4: on a filesystem holding a valid artifact, the first
call from the empty cache yields the demo handle and a one-read state,
and the repeated call yields the identical handle and state. -/
theorem cachedLoad_repeat_same_handle_witness :
    demoDisk "model.joblib" = .ok demoModel ∧
    cachedLoad demoDisk demoState0 "model.joblib" =
      .ok (some demoModel, demoState1) ∧
    cachedLoad demoDisk demoState1 "model.joblib" =
      .ok (some demoModel, demoState1) :=
  ⟨rfl, rfl,
   cachedLoad_repeat_same_handle demoDisk "model.joblib" demoModel
     demoState0 (some demoModel) demoState1 rfl rfl⟩

/-- C5: every success message renders the predicted scalar with exactly
two digits after the decimal point, immediately followed by the percent
symbol; and the message rendered for a load failure is distinguishable
from the one rendered for a prediction failure, whatever the underlying
cause text is. -/
theorem presenter_two_decimals_and_distinct (q : ℚ) (e : String) :
    (∃ ip c₁ c₂, successMsg q =
        "**Porcentaje Predicho:** `" ++ ip ++ "." ++ String.mk [c₁, c₂] ++
          "%`" ∧
      (String.mk [c₁, c₂]).length = 2) ∧
    warningMsg ≠ predictionErrorMsg e := by
  constructor
  · refine ⟨(if roundHalf (q * 100) < 0 then "-" else "") ++
        toString ((roundHalf (q * 100)).natAbs / 100),
      Nat.digitChar ((roundHalf (q * 100)).natAbs % 100 / 10),
      Nat.digitChar ((roundHalf (q * 100)).natAbs % 100 % 10), ?_, rfl⟩
    simp only [successMsg, formatFixed2, twoDigits, String.append_assoc]
  · intro h
    have h1 := congrArg (fun s => s.data.head?) h
    have h2 : warningMsg.data.head? = some 'E' := rfl
    have h3 : (predictionErrorMsg e).data.head? = some 'O' := rfl
    simp only [h2, h3] at h1
    exact absurd h1 (by decide)

/-- Witness for C5: the two rendered failure messages differ at the
concrete cause text of a schema mismatch. -/
theorem presenter_two_decimals_and_distinct_witness :
    warningMsg ≠ predictionErrorMsg "columns are missing" :=
  (presenter_two_decimals_and_distinct 0 "columns are missing").2

/-- C6: the Input Collector exposes exactly three bounded numeric
controls, with bounds and defaults (60.00, 70.00, 66.00), (240, 740, 540)
and (-175, 305, 250), and every value a sidebar control can hold satisfies
min ≤ value ≤ max. -/
theorem input_collector_bounds :
    sidebarSliders.length = 3 ∧
    (ironSlider.minVal, ironSlider.maxVal, ironSlider.defVal) =
      (60, 70, 66) ∧
    (aminaSlider.minVal, aminaSlider.maxVal, aminaSlider.defVal) =
      (240, 740, 540) ∧
    (airflowSlider.minVal, airflowSlider.maxVal, airflowSlider.defVal) =
      (-175, 305, 250) ∧
    ∀ sl ∈ sidebarSliders, ∀ v, sl.accepts v →
      sl.minVal ≤ v ∧ v ≤ sl.maxVal := by
  refine ⟨rfl, rfl, rfl, rfl, ?_⟩
  intro sl hsl v hv
  refine Slider.accepts_bounds sl ?_ v hv
  fin_cases hsl <;> norm_num [ironSlider, aminaSlider, airflowSlider]

/-- Witness for C6: the default iron value 66.00 is held by the iron
slider, which is one of the three sidebar controls, and it lies within
the declared bounds. -/
theorem input_collector_bounds_witness :
    ironSlider ∈ sidebarSliders ∧ ironSlider.accepts 66 ∧
    ironSlider.minVal ≤ 66 ∧ (66 : ℚ) ≤ ironSlider.maxVal := by
  have hmem : ironSlider ∈ sidebarSliders := by simp [sidebarSliders]
  have hacc : ironSlider.accepts 66 :=
    ⟨120, by norm_num [ironSlider], by norm_num [ironSlider]⟩
  have hb := input_collector_bounds.2.2.2.2 ironSlider hmem 66 hacc
  exact ⟨hmem, hacc, hb.1, hb.2⟩

/-- C7: the boundary values 60.00 and 70.00 of the iron-concentrate
control are both values the slider can hold, the resulting input triples
are in bounds, and with a loaded model the prediction run can be
triggered with either value without the script raising. -/
theorem iron_boundaries_accepted :
    ironSlider.accepts 60 ∧ ironSlider.accepts 70 ∧
    inBounds { iron := 60, amina := 540, airflow := 250 } ∧
    inBounds { iron := 70, amina := 540, airflow := 250 } ∧
    ∀ m : Model,
      (∃ rs, runApp (.ok m) true { iron := 60, amina := 540, airflow := 250 } =
        Except.ok rs) ∧
      (∃ rs, runApp (.ok m) true { iron := 70, amina := 540, airflow := 250 } =
        Except.ok rs) := by
  have h60 : ironSlider.accepts 60 :=
    ⟨0, by norm_num [ironSlider], by norm_num [ironSlider]⟩
  have h70 : ironSlider.accepts 70 :=
    ⟨200, by norm_num [ironSlider], by norm_num [ironSlider]⟩
  have ham : aminaSlider.accepts 540 :=
    ⟨300, by norm_num [aminaSlider], by norm_num [aminaSlider]⟩
  have hair : airflowSlider.accepts 250 :=
    ⟨425, by norm_num [airflowSlider], by norm_num [airflowSlider]⟩
  exact ⟨h60, h70, ⟨h60, ham, hair⟩, ⟨h70, ham, hair⟩,
    fun m => ⟨⟨_, rfl⟩, ⟨_, rfl⟩⟩⟩

/-- C8: the inference call receives a single-row record (every column of
`df_input` holds exactly one cell), the app consumes exactly the rendering
of the returned sequence, and that rendering depends only on the element
at index 0: any two returned sequences with the same head render
identically. -/
theorem predict_consumes_index_zero :
    (∀ p, (df_input p).map (fun c => c.2.length) = [1, 1, 1]) ∧
    (∀ m p, runApp (.ok m) true p =
      Except.ok (predictionRender (m.predict (df_input p)))) ∧
    (∀ v xs ys, predictionRender (.returns (v :: xs)) =
      predictionRender (.returns (v :: ys))) := by
  refine ⟨fun p => rfl, fun m p => rfl, fun v xs ys => ?_⟩
  cases v <;> rfl

/-- C9: the exception handler wraps the index-0 access and the formatting
as well as the inference call itself: an empty returned sequence and a
non-formattable index-0 value both yield a rendered error message (after
the already-rendered subheader) rather than an escaped exception, and a
run whose model returns an empty sequence still returns normally. -/
theorem guarded_region_covers_indexing_and_formatting (rep : String) :
    predictionRender (.returns []) =
      [Render.subheader resultHeader,
       Render.error (predictionErrorMsg indexErrMsg)] ∧
    predictionRender (.returns [.other rep]) =
      [Render.subheader resultHeader,
       Render.error (predictionErrorMsg (formatCodeErrMsg rep))] ∧
    ∀ m p, m.predict (df_input p) = .returns [] →
      runApp (.ok m) true p =
        Except.ok [Render.subheader resultHeader,
          Render.error (predictionErrorMsg indexErrMsg)] := by
  refine ⟨rfl, rfl, fun m p hm => ?_⟩
  simp [runApp, load_model, hm, predictionRender]

/-- Witness for C9: a model returning the empty sequence makes the app
render the subheader and the index error, with no escaped exception. -/
theorem guarded_region_covers_indexing_and_formatting_witness :
    emptyModel.predict (df_input defaultParams) = .returns [] ∧
    runApp (.ok emptyModel) true defaultParams =
      Except.ok [Render.subheader resultHeader,
        Render.error (predictionErrorMsg indexErrMsg)] :=
  ⟨rfl, (guarded_region_covers_indexing_and_formatting "an object").2.2
    emptyModel defaultParams rfl⟩

/-- C10: the fixed step granularities are 0.05, 1 and 1, so every value
the iron slider can hold equals 60.00 + 0.05·k for a natural k and is at
most 70.00, and every value of the amine-flow and air-flow sliders is an
integer. -/
theorem slider_step_granularity :
    ironSlider.step = 1/20 ∧ aminaSlider.step = 1 ∧ airflowSlider.step = 1 ∧
    (∀ v, ironSlider.accepts v →
      ∃ k : ℕ, v = 60 + (k : ℚ) * (1/20) ∧ v ≤ 70) ∧
    (∀ v, aminaSlider.accepts v → ∃ n : ℤ, v = (n : ℚ)) ∧
    (∀ v, airflowSlider.accepts v → ∃ n : ℤ, v = (n : ℚ)) := by
  refine ⟨rfl, rfl, rfl, ?_, ?_, ?_⟩
  · rintro v ⟨k, rfl, hle⟩
    exact ⟨k, by norm_num [ironSlider], by simpa [ironSlider] using hle⟩
  · rintro v ⟨k, rfl, hle⟩
    exact ⟨240 + k, by push_cast [aminaSlider]; ring⟩
  · rintro v ⟨k, rfl, hle⟩
    exact ⟨-175 + k, by push_cast [airflowSlider]; ring⟩

/-- Witness for C10: the iron value 66.10 is held by the iron slider and
decomposes as 60 + 122·0.05, and the amine value 540 is an integer. -/
theorem slider_step_granularity_witness :
    ironSlider.accepts (661/10) ∧
    (∃ k : ℕ, (661/10 : ℚ) = 60 + (k : ℚ) * (1/20) ∧ (661/10 : ℚ) ≤ 70) ∧
    aminaSlider.accepts 540 ∧ (∃ n : ℤ, (540 : ℚ) = (n : ℚ)) := by
  have hi : ironSlider.accepts (661/10) :=
    ⟨122, by norm_num [ironSlider], by norm_num [ironSlider]⟩
  have ha : aminaSlider.accepts 540 :=
    ⟨300, by norm_num [aminaSlider], by norm_num [aminaSlider]⟩
  exact ⟨hi, slider_step_granularity.2.2.2.1 _ hi, ha,
    slider_step_granularity.2.2.2.2.1 _ ha⟩

end Lixiviacion
